import Mathlib

/-! # VideoCapCamera (M3T) : setup, frame refresh and persisted configuration

A shallow embedding of `src/M3T/src/videocap_camera.cpp`.  The class is embedded
as a record of its fields (those of the `ColorCamera` base class included), and
each member function as a function that takes the sensor and the outside world
(file system, capture hardware, chronological trace of library calls) and
returns the C++ return value together with the new sensor and the new world.

The libraries the class is written against are not part of the program:
`std::filesystem::path` and Eigen's `Transform3fA` are type parameters whose
operations come from the classes `FsPath` and `Transform`, so every theorem
holds for any implementation of them; `cv::Mat`, `cv::VideoCapture` and
`cv::FileStorage` are small explicit models.
-/

namespace M3T

/-! ## Library types -/

/-- Operations of `std::filesystem::path` used by the camera code. -/
class FsPath (P : Type) where
  /-- The constructor `std::filesystem::path{s}`. -/
  ofString : String → P
  /-- The test `p.empty()`. -/
  empty : P → Bool
  /-- The test `p.is_relative()`. -/
  is_relative : P → Bool
  /-- The path `p.parent_path()`. -/
  parent_path : P → P
  /-- The path `p / q`. -/
  append : P → P → P

/-- Operations of Eigen's `Transform3fA` used by the camera code. -/
class Transform (T : Type) where
  /-- The transform `Transform3fA::Identity()`. -/
  Identity : T
  /-- The transform `t.inverse()`. -/
  inverse : T → T

/-- The type `cv::Mat`, reduced to its dimensions and its pixel data. -/
structure Mat where
  rows : Nat
  cols : Nat
  data : List Nat
deriving DecidableEq, Repr

/-- The value `cv::Mat{}`: the default-constructed (released) matrix. -/
def Mat.released : Mat := ⟨0, 0, []⟩

/-- The test `cv::Mat::empty()`: no element. -/
def Mat.empty (m : Mat) : Bool := m.rows * m.cols == 0 || m.data.isEmpty

/-- Modelled from the spec: the type `Intrinsics` (declared in common.h, which is
absent): "resolution (width, height) plus calibration parameters", that is
"focal/principal parameters".  The code only stores and copies the calibration
parameters, so they are carried as rationals. -/
structure Intrinsics where
  fu : ℚ
  fv : ℚ
  ppu : ℚ
  ppv : ℚ
  width : Int
  height : Int
deriving DecidableEq

/-! ## Configuration documents (`cv::FileStorage`) -/

/-- A value stored under a key of a configuration document. -/
inductive YamlValue (T : Type) where
  | int (v : Int)
  | bool (b : Bool)
  | str (s : String)
  | intrinsics (i : Intrinsics)
  | transform (t : T)
deriving DecidableEq

/-- A configuration document: the keys with their values, in file order. -/
abbrev Document (T : Type) := List (String × YamlValue T)

/-- The node `fs[name]`: the first node stored under `name`, if any. -/
def Document.node {T : Type} (fs : Document T) (name : String) : Option (YamlValue T) :=
  fs.lookup name

def YamlValue.asInt {T : Type} : YamlValue T → Option Int
  | .int v => some v
  | _ => none

def YamlValue.asBool {T : Type} : YamlValue T → Option Bool
  | .bool b => some b
  | _ => none

def YamlValue.asString {T : Type} : YamlValue T → Option String
  | .str s => some s
  | _ => none

def YamlValue.asPath {P T : Type} [FsPath P] : YamlValue T → Option P
  | .str s => some (FsPath.ofString s)
  | _ => none

def YamlValue.asIntrinsics {T : Type} : YamlValue T → Option Intrinsics
  | .intrinsics i => some i
  | _ => none

def YamlValue.asTransform {T : Type} : YamlValue T → Option T
  | .transform t => some t
  | _ => none

/-- Modelled from the spec: `ReadRequiredValueFromYaml(fs, name, &value)` of
common.h (absent).  "failure (missing required field) ... returns failure": when
no value of the expected kind is stored under `name` the call returns `false`
and `*value` is as before; otherwise `*value` is the stored value and the call
returns `true`. -/
def ReadRequiredValueFromYaml {T α : Type} (fs : Document T) (name : String)
    (kind : YamlValue T → Option α) (value : α) : Bool × α :=
  match (fs.node name).bind kind with
  | some v => (true, v)
  | none => (false, value)

/-- Modelled from the spec: `ReadOptionalValueFromYaml(fs, name, &value)` of
common.h (absent).  "omission of an optional field on read must fall back to that
field's documented default rather than erroring": the call returns nothing, and
the field afterwards holds the stored value when `name` is in the document, and
`fallback` when it is omitted.  `fallback` is what the spec documents for the
field; each call site passes it (see `LoadMetaData`). -/
def ReadOptionalValueFromYaml {T α : Type} (fs : Document T) (name : String)
    (kind : YamlValue T → Option α) (fallback : α) : α :=
  match (fs.node name).bind kind with
  | some v => v
  | none => fallback

/-- Modelled from the spec: `WriteValueToYaml(fs, name, value)` of common.h
(absent), and `fs << name << value`: the value is appended to the document under
construction with key `name` ("writing then reading the same document must
reproduce" it). -/
def WriteValueToYaml {T : Type} (fs : Document T) (name : String) (value : YamlValue T) :
    Document T :=
  fs ++ [(name, value)]

/-! ## The world outside the sensor -/

/-- Properties of `cv::VideoCapture::set` that the camera requests. -/
inductive CapProp where
  | CAP_PROP_FRAME_WIDTH
  | CAP_PROP_FRAME_HEIGHT
deriving DecidableEq, Repr

/-- The capture hardware: which `open` and `set` requests it grants, and the
frames it will deliver to the coming reads (an exhausted device delivers the
released matrix). -/
structure Device where
  canOpen : Int → Int → Bool
  accepts : CapProp → Int → Bool
  frames : List Mat

/-- A call that leaves the process. -/
inductive Event (P : Type) where
  | fsOpenRead (path : P)
  | fsOpenWrite (path : P)
  | capOpen (device_id api_id : Int)
  | capSet (prop : CapProp) (value : Int)
  | capRead
deriving DecidableEq

/-- The world: the documents on disk, the paths at which a document can be
created, the capture hardware, and the calls made so far (oldest first). -/
structure World (P T : Type) where
  files : P → Option (Document T)
  writable : P → Bool
  device : Device
  trace : List (Event P)

/-- The type `cv::VideoCapture`: the handle held by the sensor. -/
structure VideoCapture where
  opened : Bool
deriving DecidableEq, Repr

/-! ## The sensor -/

/-- The fields of `VideoCapCamera`: those of the `ColorCamera` base class
(camera.h is absent; the fields are the ones the member functions use) followed
by `device_id_`, `api_id_` and `cap` of videocap_camera.h. -/
structure VideoCapCamera (P T : Type) where
  name_ : String
  metafile_path_ : P
  intrinsics_ : Intrinsics
  camera2world_pose_ : T
  world2camera_pose_ : T
  save_directory_ : P
  save_index_ : Int
  save_image_type_ : String
  save_images_ : Bool
  set_up_ : Bool
  image_ : Mat
  device_id_ : Int
  api_id_ : Int
  cap : VideoCapture

/-- What a member function leaves behind: its return value, the sensor and the
world. -/
structure Outcome (P T : Type) where
  ret : Bool
  self : VideoCapCamera P T
  world : World P T

variable {P T : Type}

/-- The call `cap.open(device_id, api_id)`: granted by the hardware or not. -/
def VideoCapture.open (_cap : VideoCapture) (w : World P T) (device_id api_id : Int) :
    VideoCapture × World P T :=
  (⟨w.device.canOpen device_id api_id⟩,
   { w with trace := w.trace ++ [Event.capOpen device_id api_id] })

/-- The test `cap.isOpened()`. -/
def VideoCapture.isOpened (cap : VideoCapture) : Bool := cap.opened

/-- The call `cap.set(prop, value)`: granted by the hardware or not; a closed handle
refuses. -/
def VideoCapture.set (cap : VideoCapture) (w : World P T) (prop : CapProp) (value : Int) :
    Bool × World P T :=
  (cap.opened && w.device.accepts prop value,
   { w with trace := w.trace ++ [Event.capSet prop value] })

/-- The call `cap.read(image)`: the next frame of the hardware; the released matrix when
the handle is closed or the hardware has nothing to deliver. -/
def VideoCapture.read (cap : VideoCapture) (w : World P T) : Mat × World P T :=
  match cap.opened, w.device.frames with
  | true, f :: rest =>
    (f, { w with device := { w.device with frames := rest },
                 trace := w.trace ++ [Event.capRead] })
  | _, _ => (Mat.released, { w with trace := w.trace ++ [Event.capRead] })

/-- Modelled from the spec: `OpenYamlFileStorage(path, &fs)` of common.h
(absent): opens the document at `path` for reading and returns whether that
worked. -/
def OpenYamlFileStorage (w : World P T) (path : P) : Option (Document T) × World P T :=
  (w.files path, { w with trace := w.trace ++ [Event.fsOpenRead path] })

/-- The sequence `cv::FileStorage fs{path, WRITE}; ...; fs.release()`: the document `doc`
replaces the file at `path` when the file can be created; otherwise nothing is
stored. -/
def World.store [DecidableEq P] (w : World P T) (path : P) (doc : Document T) : World P T :=
  { w with
    files := if w.writable path then (fun q => if q = path then some doc else w.files q)
             else w.files
    trace := w.trace ++ [Event.fsOpenWrite path] }

namespace VideoCapCamera

/-- Member function `VideoCapCamera::UpdateImage` (videocap_camera.cpp, lines 48-65). -/
def UpdateImage (s : VideoCapCamera P T) (w : World P T) (_synchronized : Bool) :
    Outcome P T :=
  if !s.set_up_ then
    ⟨false, s, w⟩
  else
    let (undistorted_image, w1) := s.cap.read w
    -- an empty image is reported on std::cerr and nothing else
    ⟨true, { s with image_ := undistorted_image }, w1⟩

/-- The document `SaveMetaDataIfDesired` builds (lines 71-74). -/
def metaDataDocument (s : VideoCapCamera P T) : Document T :=
  let fs : Document T := []
  let fs := WriteValueToYaml fs "device_id" (.int s.device_id_)
  let fs := WriteValueToYaml fs "api_id" (.int s.api_id_)
  let fs := WriteValueToYaml fs "intrinsics" (.intrinsics s.intrinsics_)
  let fs := WriteValueToYaml fs "camera2world_pose" (.transform s.camera2world_pose_)
  fs

/-- The path `save_directory_ / (name_ + ".yaml")` (line 69). -/
def metaDataPath [FsPath P] (s : VideoCapCamera P T) : P :=
  FsPath.append s.save_directory_ (FsPath.ofString (s.name_ ++ ".yaml"))

/-- Member function `VideoCapCamera::SaveMetaDataIfDesired` (lines 67-77); a `const` member, so
only the world changes. -/
def SaveMetaDataIfDesired [FsPath P] [DecidableEq P] (s : VideoCapCamera P T) (w : World P T) :
    World P T :=
  if s.save_images_ then w.store s.metaDataPath s.metaDataDocument else w

/-- Member function `VideoCapCamera::LoadMetaData` (lines 79-105).  The readers
it calls are in common.h (absent) and modelled from the spec.  For an optional
key the spec documents the defaults `camera2world_pose` identity, `save_index`
0 and `save_images` false, and none for `save_directory` and
`save_image_type`. -/
def LoadMetaData [FsPath P] [Transform T] (s : VideoCapCamera P T) (w : World P T) :
    Outcome P T :=
  match OpenYamlFileStorage w s.metafile_path_ with
  | (none, w1) => ⟨false, s, w1⟩
  | (some fs, w1) =>
    -- the three required reads, left to right, stopping at the first failure
    let (ok1, device_id) := ReadRequiredValueFromYaml fs "device_id" YamlValue.asInt s.device_id_
    let s := { s with device_id_ := device_id }
    if !ok1 then ⟨false, s, w1⟩ else
    let (ok2, api_id) := ReadRequiredValueFromYaml fs "api_id" YamlValue.asInt s.api_id_
    let s := { s with api_id_ := api_id }
    if !ok2 then ⟨false, s, w1⟩ else
    let (ok3, intrinsics) :=
      ReadRequiredValueFromYaml fs "intrinsics" YamlValue.asIntrinsics s.intrinsics_
    let s := { s with intrinsics_ := intrinsics }
    if !ok3 then ⟨false, s, w1⟩ else
    -- the five optional reads; an omitted key falls back to the documented default of
    -- the field (identity, 0, false), and to the field as it is where none is documented
    let s := { s with camera2world_pose_ :=
      ReadOptionalValueFromYaml fs "camera2world_pose" YamlValue.asTransform Transform.Identity }
    let s := { s with save_directory_ :=
      ReadOptionalValueFromYaml fs "save_directory" YamlValue.asPath s.save_directory_ }
    let s := { s with save_index_ :=
      ReadOptionalValueFromYaml fs "save_index" YamlValue.asInt 0 }
    let s := { s with save_image_type_ :=
      ReadOptionalValueFromYaml fs "save_image_type" YamlValue.asString s.save_image_type_ }
    let s := { s with save_images_ :=
      ReadOptionalValueFromYaml fs "save_images" YamlValue.asBool false }
    -- process parameters
    let s := if FsPath.is_relative s.save_directory_ then
        { s with save_directory_ :=
            FsPath.append (FsPath.parent_path s.metafile_path_) s.save_directory_ }
      else s
    let s := { s with world2camera_pose_ := Transform.inverse s.camera2world_pose_ }
    ⟨true, s, w1⟩

/-- Member function `VideoCapCamera::SetUp` (lines 25-46). -/
def SetUp [FsPath P] [DecidableEq P] [Transform T] (s : VideoCapCamera P T) (w : World P T) :
    Outcome P T :=
  let s := { s with set_up_ := false }
  let loaded : Outcome P T :=
    if !FsPath.empty s.metafile_path_ then s.LoadMetaData w else ⟨true, s, w⟩
  if !loaded.ret then ⟨false, loaded.self, loaded.world⟩ else
  let s := loaded.self
  let w := s.SaveMetaDataIfDesired loaded.world
  let (cap, w) := s.cap.open w s.device_id_ s.api_id_
  let s := { s with cap := cap }
  if !s.cap.isOpened then ⟨false, s, w⟩ else
  let (okWidth, w) := s.cap.set w .CAP_PROP_FRAME_WIDTH s.intrinsics_.width
  if !okWidth then ⟨false, s, w⟩ else
  let (okHeight, w) := s.cap.set w .CAP_PROP_FRAME_HEIGHT s.intrinsics_.height
  if !okHeight then ⟨false, s, w⟩ else
  let s := { s with set_up_ := true }
  s.UpdateImage w true

/-- Modelled from the spec: the constructor
`VideoCapCamera(name, metafile_path) : ColorCamera{name, metafile_path}` (lines
10-13; the base-class constructor is in camera.h, which is absent).  The sensor
starts not ready, with the documented defaults of the optional fields:
`camera2world_pose` identity (and `world2camera_pose` its inverse), `save_index`
0, `save_images` false; `cap` is default-constructed, hence closed.  What neither
the code nor the spec fixes (`device_id_`, `api_id_` and `intrinsics_`, which the
constructor leaves uninitialised, the frame buffer, and the defaults of
`save_directory` and `save_image_type`) is taken from `rest`. -/
def create [Transform T] (name : String) (metafile_path : P) (rest : VideoCapCamera P T) :
    VideoCapCamera P T :=
  { rest with
    name_ := name
    metafile_path_ := metafile_path
    camera2world_pose_ := Transform.Identity
    world2camera_pose_ := Transform.inverse (Transform.Identity : T)
    save_index_ := 0
    save_images_ := false
    set_up_ := false
    cap := ⟨false⟩ }

end VideoCapCamera

/-! ## Concrete library instances and inputs for the examples -/

namespace Example

/-- Splits a character sequence at every `/`. -/
def splitSlash : List Char → List (List Char)
  | [] => [[]]
  | c :: cs =>
    if c = '/' then [] :: splitSlash cs
    else match splitSlash cs with
      | [] => [[c]]
      | h :: t => (c :: h) :: t

/-- A POSIX path, separators normalised: whether it starts at the root, and the
names of its components. -/
structure PosixPath where
  rooted : Bool
  parts : List String
deriving DecidableEq, Repr

instance : FsPath PosixPath where
  ofString s :=
    ⟨s.data.head? == some '/', ((splitSlash s.data).filter (fun c => !c.isEmpty)).map String.mk⟩
  empty p := !p.rooted && p.parts.isEmpty
  is_relative p := !p.rooted
  parent_path p := ⟨p.rooted, p.parts.dropLast⟩
  append p q := if q.rooted then q else ⟨p.rooted, p.parts ++ q.parts⟩

/-- A rigid transform without rotation: the translation vector. -/
structure Translation where
  x : Int
  y : Int
  z : Int
deriving DecidableEq, Repr

instance : Transform Translation where
  Identity := ⟨0, 0, 0⟩
  inverse t := ⟨-t.x, -t.y, -t.z⟩

/-- A 2x1 frame. -/
def frame : Mat := ⟨2, 1, [7, 9]⟩

/-- Hardware that grants every request and has no frame to deliver. -/
def idleDevice : Device := ⟨fun _ _ => true, fun _ _ => true, []⟩

/-- Hardware that refuses every `open`. -/
def deadDevice : Device := ⟨fun _ _ => false, fun _ _ => true, [frame]⟩

/-- An empty disk on which any file can be created. -/
def blankWorld (device : Device) : World PosixPath Translation :=
  ⟨fun _ => none, fun _ => true, device, []⟩

/-- A sensor built from explicit parameters (no metadata reference), 640x480 on
device 0, not yet set up, persistence off. -/
def camera : VideoCapCamera PosixPath Translation :=
  { name_ := "color_camera"
    metafile_path_ := ⟨false, []⟩
    intrinsics_ := ⟨600, 600, 320, 240, 640, 480⟩
    camera2world_pose_ := ⟨1, 2, 3⟩
    world2camera_pose_ := ⟨-1, -2, -3⟩
    save_directory_ := ⟨true, ["tmp", "run"]⟩
    save_index_ := 5
    save_image_type_ := "png"
    save_images_ := false
    set_up_ := false
    image_ := Mat.released
    device_id_ := 0
    api_id_ := 0
    cap := ⟨false⟩ }

/-- The sensor `camera` after a successful setup, holding `frame`. -/
def runningCamera : VideoCapCamera PosixPath Translation :=
  { camera with set_up_ := true, image_ := frame, cap := ⟨true⟩ }

/-- Where the metadata document of the examples lives. -/
def metafile : PosixPath := ⟨true, ["data", "color_camera.yaml"]⟩

/-- A document with the three required keys and no optional key. -/
def requiredOnly : Document Translation :=
  [("device_id", .int 2), ("api_id", .int 0), ("intrinsics", .intrinsics ⟨500, 500, 160, 120, 320, 240⟩)]

/-- A document without `api_id`. -/
def incomplete : Document Translation :=
  [("device_id", .int 2), ("intrinsics", .intrinsics ⟨500, 500, 160, 120, 320, 240⟩)]

/-- A document with the required keys and a relative `save_directory`. -/
def withSaveDirectory : Document Translation :=
  requiredOnly ++ [("save_directory", .str "out/images")]

/-- A document with the required keys and an absolute `save_directory`. -/
def withRootedSaveDirectory : Document Translation :=
  requiredOnly ++ [("save_directory", .str "/var/images")]

/-- A disk that holds `doc` at `metafile` and nothing else. -/
def diskWorld (doc : Document Translation) (device : Device) : World PosixPath Translation :=
  ⟨fun q => if q = metafile then some doc else none, fun _ => true, device, []⟩

/-- The sensor `camera` with a metadata reference; its optional fields are not at
their defaults (pose (1,2,3), save index 5). -/
def fileCamera : VideoCapCamera PosixPath Translation :=
  { camera with metafile_path_ := metafile }

/-- The sensor `camera` with persistence enabled; its configuration goes to
`/tmp/run/color_camera.yaml`. -/
def savingCamera : VideoCapCamera PosixPath Translation :=
  { camera with save_images_ := true }

/-- A sensor just constructed on the file `savingCamera` writes. -/
def freshReader : VideoCapCamera PosixPath Translation :=
  VideoCapCamera.create "replay" savingCamera.metaDataPath camera

/-- A sensor that refers to the file `savingCamera` writes. -/
def reloadCamera : VideoCapCamera PosixPath Translation :=
  { camera with
    metafile_path_ := savingCamera.metaDataPath
    device_id_ := 9
    api_id_ := 9
    intrinsics_ := ⟨1, 1, 1, 1, 1, 1⟩
    camera2world_pose_ := ⟨0, 0, 0⟩ }

end Example

/-! ## Theorems -/

namespace VideoCapCamera

/-- C4: a sensor whose ready flag is false refuses `UpdateImage` for either value
of `synchronized`: the call returns failure, no field of the sensor changes, and
the world is as before (no frame is taken from the device and no call is
traced). -/
theorem UpdateImage_before_SetUp (s : VideoCapCamera P T) (w : World P T) (synchronized : Bool)
    (h : s.set_up_ = false) :
    s.UpdateImage w synchronized = ⟨false, s, w⟩ := by
  simp [UpdateImage, h]

/-- C4 at a concrete input: the sensor `camera`, not set up. -/
theorem UpdateImage_before_SetUp_witness :
    Example.camera.UpdateImage (Example.blankWorld Example.idleDevice) true
      = ⟨false, Example.camera, Example.blankWorld Example.idleDevice⟩ :=
  UpdateImage_before_SetUp Example.camera (Example.blankWorld Example.idleDevice) true (by decide)

/-- C1, as stated, fails: a set-up sensor holding the 2x1 frame `frame` reads from
hardware that has nothing to deliver; the read yields an empty frame, the call
returns success, and the frame buffer afterwards is not the previous frame. -/
theorem UpdateImage_empty_frame_not_retained :
    Example.runningCamera.set_up_ = true ∧
    Example.runningCamera.image_.empty = false ∧
    (Example.runningCamera.cap.read (Example.blankWorld Example.idleDevice)).1.empty = true ∧
    ¬ ((Example.runningCamera.UpdateImage (Example.blankWorld Example.idleDevice) true).ret = true ∧
       (Example.runningCamera.UpdateImage (Example.blankWorld Example.idleDevice) true).self.image_
         = Example.runningCamera.image_) := by
  decide

/-- C1, amended: when a set-up sensor reads an empty frame from the device,
`UpdateImage` returns success, the frame buffer afterwards is the empty frame
that was read, and no other field of the sensor changes; in particular a
non-empty previous frame is gone. -/
theorem UpdateImage_stores_empty_frame (s : VideoCapCamera P T) (w : World P T)
    (synchronized : Bool) (hs : s.set_up_ = true) (he : (s.cap.read w).1.empty = true) :
    (s.UpdateImage w synchronized).ret = true ∧
    (s.UpdateImage w synchronized).self = { s with image_ := (s.cap.read w).1 } ∧
    (s.UpdateImage w synchronized).self.image_.empty = true ∧
    (s.image_.empty = false → (s.UpdateImage w synchronized).self.image_ ≠ s.image_) := by
  have hr : (s.UpdateImage w synchronized).self = { s with image_ := (s.cap.read w).1 } := by
    simp [UpdateImage, hs]
  refine ⟨by simp [UpdateImage, hs], hr, by rw [hr]; exact he, ?_⟩
  intro hp heq
  rw [hr] at heq
  simp only at heq
  rw [heq] at he
  rw [he] at hp
  exact Bool.noConfusion hp

/-- C1, amended, at a concrete input: `runningCamera` holds a 2x1 frame and the
hardware has nothing to deliver. -/
theorem UpdateImage_stores_empty_frame_witness :
    (Example.runningCamera.UpdateImage (Example.blankWorld Example.idleDevice) true).ret = true ∧
    (Example.runningCamera.UpdateImage (Example.blankWorld Example.idleDevice) true).self
      = { Example.runningCamera with
          image_ := (Example.runningCamera.cap.read (Example.blankWorld Example.idleDevice)).1 } ∧
    (Example.runningCamera.UpdateImage
      (Example.blankWorld Example.idleDevice) true).self.image_.empty = true ∧
    (Example.runningCamera.UpdateImage (Example.blankWorld Example.idleDevice) true).self.image_
      ≠ Example.runningCamera.image_ :=
  have h := UpdateImage_stores_empty_frame Example.runningCamera
    (Example.blankWorld Example.idleDevice) true (by decide) (by decide)
  ⟨h.1, h.2.1, h.2.2.1, h.2.2.2 (by decide)⟩

/-- `LoadMetaData` never touches the ready flag. -/
theorem LoadMetaData_set_up [FsPath P] [Transform T] (s : VideoCapCamera P T) (w : World P T) :
    (s.LoadMetaData w).self.set_up_ = s.set_up_ := by
  unfold LoadMetaData OpenYamlFileStorage
  cases w.files s.metafile_path_ with
  | none => rfl
  | some fs =>
    simp only []
    split_ifs <;> rfl

/-- The only trace `LoadMetaData` leaves in the world is the opening of the
metadata file for reading. -/
theorem LoadMetaData_world [FsPath P] [Transform T] (s : VideoCapCamera P T) (w : World P T) :
    (s.LoadMetaData w).world
      = { w with trace := w.trace ++ [Event.fsOpenRead s.metafile_path_] } := by
  unfold LoadMetaData OpenYamlFileStorage
  cases w.files s.metafile_path_ with
  | none => rfl
  | some fs =>
    simp only []
    split_ifs <;> rfl

/-- Writing the persisted configuration leaves the capture hardware alone. -/
theorem SaveMetaDataIfDesired_device [FsPath P] [DecidableEq P] (s : VideoCapCamera P T)
    (w : World P T) : (s.SaveMetaDataIfDesired w).device = w.device := by
  unfold SaveMetaDataIfDesired World.store
  split_ifs <;> rfl

/-- What `LoadMetaData` computes from a document that holds the three required
keys. -/
theorem LoadMetaData_of_required [FsPath P] [Transform T] (s : VideoCapCamera P T)
    (w : World P T) (fs : Document T) (d a : Int) (i : Intrinsics)
    (hf : w.files s.metafile_path_ = some fs)
    (hd : fs.node "device_id" = some (.int d)) (ha : fs.node "api_id" = some (.int a))
    (hi : fs.node "intrinsics" = some (.intrinsics i)) :
    s.LoadMetaData w =
      ⟨true,
       { s with
         device_id_ := d
         api_id_ := a
         intrinsics_ := i
         camera2world_pose_ :=
           ReadOptionalValueFromYaml fs "camera2world_pose" YamlValue.asTransform
             Transform.Identity
         world2camera_pose_ := Transform.inverse
           (ReadOptionalValueFromYaml fs "camera2world_pose" YamlValue.asTransform
             (Transform.Identity : T))
         save_directory_ :=
           if FsPath.is_relative
               (ReadOptionalValueFromYaml fs "save_directory" YamlValue.asPath s.save_directory_)
           then FsPath.append (FsPath.parent_path s.metafile_path_)
               (ReadOptionalValueFromYaml fs "save_directory" YamlValue.asPath s.save_directory_)
           else ReadOptionalValueFromYaml fs "save_directory" YamlValue.asPath s.save_directory_
         save_index_ := ReadOptionalValueFromYaml fs "save_index" YamlValue.asInt 0
         save_image_type_ :=
           ReadOptionalValueFromYaml fs "save_image_type" YamlValue.asString s.save_image_type_
         save_images_ := ReadOptionalValueFromYaml fs "save_images" YamlValue.asBool false },
       { w with trace := w.trace ++ [Event.fsOpenRead s.metafile_path_] }⟩ := by
  unfold LoadMetaData OpenYamlFileStorage
  rw [hf]
  simp only [ReadRequiredValueFromYaml, hd, ha, hi, Option.bind, YamlValue.asInt,
    YamlValue.asIntrinsics]
  split_ifs <;> simp_all

/-- A document that lacks a required key makes `LoadMetaData` fail. -/
theorem LoadMetaData_missing_required [FsPath P] [Transform T] (s : VideoCapCamera P T)
    (w : World P T) (fs : Document T) (hf : w.files s.metafile_path_ = some fs)
    (hm : fs.node "device_id" = none ∨ fs.node "api_id" = none ∨ fs.node "intrinsics" = none) :
    (s.LoadMetaData w).ret = false := by
  unfold LoadMetaData OpenYamlFileStorage
  rw [hf]
  simp only [ReadRequiredValueFromYaml]
  rcases hm with h | h | h <;> rw [h] <;> simp only [Option.bind] <;> split_ifs <;> simp_all

/-- `LoadMetaData` never touches the capture handle. -/
theorem LoadMetaData_cap [FsPath P] [Transform T] (s : VideoCapCamera P T) (w : World P T) :
    (s.LoadMetaData w).self.cap = s.cap := by
  unfold LoadMetaData OpenYamlFileStorage
  cases w.files s.metafile_path_ with
  | none => rfl
  | some fs =>
    simp only []
    split_ifs <;> rfl

/-- The keys of the persisted configuration and what is stored under them:
the four keys written, and none of the persistence keys. -/
theorem metaDataDocument_node (s : VideoCapCamera P T) :
    s.metaDataDocument.node "device_id" = some (.int s.device_id_) ∧
    s.metaDataDocument.node "api_id" = some (.int s.api_id_) ∧
    s.metaDataDocument.node "intrinsics" = some (.intrinsics s.intrinsics_) ∧
    s.metaDataDocument.node "camera2world_pose" = some (.transform s.camera2world_pose_) ∧
    s.metaDataDocument.node "save_directory" = none ∧
    s.metaDataDocument.node "save_index" = none ∧
    s.metaDataDocument.node "save_image_type" = none ∧
    s.metaDataDocument.node "save_images" = none := by
  simp [metaDataDocument, WriteValueToYaml, Document.node, List.lookup]

/-- With persistence enabled and a file that can be created, the persisted
configuration is on disk after `SaveMetaDataIfDesired`. -/
theorem SaveMetaDataIfDesired_files [FsPath P] [DecidableEq P] (s : VideoCapCamera P T)
    (w : World P T) (hs : s.save_images_ = true) (hw : w.writable s.metaDataPath = true) :
    (s.SaveMetaDataIfDesired w).files s.metaDataPath = some s.metaDataDocument := by
  simp [SaveMetaDataIfDesired, World.store, hs, hw]

/-- C9: whatever the sensor and the world (a device that delivers an empty frame
to the validating refresh included), the ready flag on return from `SetUp` is
true if and only if `SetUp` returned success. -/
theorem SetUp_ready_iff_success [FsPath P] [DecidableEq P] [Transform T]
    (s : VideoCapCamera P T) (w : World P T) :
    (s.SetUp w).self.set_up_ = true ↔ (s.SetUp w).ret = true := by
  unfold SetUp
  simp only []
  split_ifs <;> simp [UpdateImage, LoadMetaData_set_up]

/-- An example of the success path of `SetUp`: hardware that grants every request
and delivers nothing.  The validating refresh reads an empty frame, and `SetUp`
still returns success with the ready flag set. -/
theorem SetUp_with_empty_frame :
    (Example.camera.SetUp (Example.blankWorld Example.idleDevice)).ret = true ∧
    (Example.camera.SetUp (Example.blankWorld Example.idleDevice)).self.set_up_ = true ∧
    (Example.camera.SetUp (Example.blankWorld Example.idleDevice)).self.image_.empty = true ∧
    (Example.camera.SetUp (Example.blankWorld Example.idleDevice)).world.trace
      = [Event.capOpen 0 0, Event.capSet .CAP_PROP_FRAME_WIDTH 640,
         Event.capSet .CAP_PROP_FRAME_HEIGHT 480, Event.capRead] := by
  decide

/-- C2: whatever the sensor was before (a sensor that was ready included), if the
hardware refuses to open for the sensor's device and backend selectors, or
rejects the width or the height of its intrinsics (selectors and intrinsics as
they are on return, that is, after the metadata were loaded), `SetUp` returns
failure and the ready flag is false on return. -/
theorem SetUp_device_failure [FsPath P] [DecidableEq P] [Transform T]
    (s : VideoCapCamera P T) (w : World P T)
    (h : w.device.canOpen (s.SetUp w).self.device_id_ (s.SetUp w).self.api_id_ = false ∨
      w.device.accepts .CAP_PROP_FRAME_WIDTH (s.SetUp w).self.intrinsics_.width = false ∨
      w.device.accepts .CAP_PROP_FRAME_HEIGHT (s.SetUp w).self.intrinsics_.height = false) :
    (s.SetUp w).ret = false ∧ (s.SetUp w).self.set_up_ = false := by
  unfold SetUp at h ⊢
  simp only [] at h ⊢
  split_ifs at h ⊢ <;>
    simp_all [UpdateImage, VideoCapture.open, VideoCapture.set, VideoCapture.isOpened,
      VideoCapture.read, SaveMetaDataIfDesired_device, LoadMetaData_set_up,
      LoadMetaData_world]

/-- C2 at a concrete input: a sensor that was ready, on hardware that refuses to
open. -/
theorem SetUp_device_failure_witness :
    (Example.runningCamera.SetUp (Example.blankWorld Example.deadDevice)).ret = false ∧
    (Example.runningCamera.SetUp (Example.blankWorld Example.deadDevice)).self.set_up_ = false :=
  SetUp_device_failure Example.runningCamera (Example.blankWorld Example.deadDevice)
    (Or.inl (by decide))

/-- C7: after every successful `LoadMetaData`, whether or not the document holds
`camera2world_pose`, `world2camera_pose_` is the inverse of the sensor's
resulting `camera2world_pose_`. -/
theorem LoadMetaData_world2camera_pose [FsPath P] [Transform T] (s : VideoCapCamera P T)
    (w : World P T) (h : (s.LoadMetaData w).ret = true) :
    (s.LoadMetaData w).self.world2camera_pose_
      = Transform.inverse (s.LoadMetaData w).self.camera2world_pose_ := by
  unfold LoadMetaData OpenYamlFileStorage at h ⊢
  cases hf : w.files s.metafile_path_ with
  | none => rw [hf] at h; simp at h
  | some fs =>
    rw [hf] at h
    simp only [] at h ⊢
    split_ifs at h ⊢ <;> simp_all

/-- C7 at a concrete input: a document without `camera2world_pose`. -/
theorem LoadMetaData_world2camera_pose_witness :
    (Example.fileCamera.LoadMetaData
        (Example.diskWorld Example.requiredOnly Example.idleDevice)).self.world2camera_pose_
      = Transform.inverse (Example.fileCamera.LoadMetaData
        (Example.diskWorld Example.requiredOnly Example.idleDevice)).self.camera2world_pose_ :=
  LoadMetaData_world2camera_pose Example.fileCamera
    (Example.diskWorld Example.requiredOnly Example.idleDevice) (by decide)

/-- C6: when the document holds `save_directory` (and the load succeeds, that is,
the required keys are there), the sensor's save directory after `LoadMetaData`
is (parent directory of the metadata file) / `save_directory` if that path is
relative, and `save_directory` itself if it is absolute (not relative). -/
theorem LoadMetaData_save_directory [FsPath P] [Transform T] (s : VideoCapCamera P T)
    (w : World P T) (fs : Document T) (dir : String)
    (hf : w.files s.metafile_path_ = some fs)
    (hdir : fs.node "save_directory" = some (.str dir))
    (h : (s.LoadMetaData w).ret = true) :
    (FsPath.is_relative (FsPath.ofString dir : P) = true →
      (s.LoadMetaData w).self.save_directory_
        = FsPath.append (FsPath.parent_path s.metafile_path_) (FsPath.ofString dir)) ∧
    (FsPath.is_relative (FsPath.ofString dir : P) = false →
      (s.LoadMetaData w).self.save_directory_ = FsPath.ofString dir) := by
  unfold LoadMetaData OpenYamlFileStorage at h ⊢
  rw [hf] at h ⊢
  simp only [] at h ⊢
  have hr : ReadOptionalValueFromYaml fs "save_directory" YamlValue.asPath s.save_directory_
      = (FsPath.ofString dir : P) := by
    simp [ReadOptionalValueFromYaml, hdir, YamlValue.asPath]
  split_ifs at h ⊢ <;> simp_all

/-- C6 at two concrete inputs: the metadata file `/data/color_camera.yaml` with
the relative `out/images`, and with the absolute `/var/images`. -/
theorem LoadMetaData_save_directory_witness :
    (Example.fileCamera.LoadMetaData
        (Example.diskWorld Example.withSaveDirectory Example.idleDevice)).self.save_directory_
      = (⟨true, ["data", "out", "images"]⟩ : Example.PosixPath) ∧
    (Example.fileCamera.LoadMetaData
        (Example.diskWorld Example.withRootedSaveDirectory Example.idleDevice)).self.save_directory_
      = (⟨true, ["var", "images"]⟩ : Example.PosixPath) :=
  ⟨(LoadMetaData_save_directory Example.fileCamera
      (Example.diskWorld Example.withSaveDirectory Example.idleDevice)
      Example.withSaveDirectory "out/images" (by decide) (by decide) (by decide)).1 (by decide),
   (LoadMetaData_save_directory Example.fileCamera
      (Example.diskWorld Example.withRootedSaveDirectory Example.idleDevice)
      Example.withRootedSaveDirectory "/var/images" (by decide) (by decide) (by decide)).2
      (by decide)⟩

/-- C3: a sensor with a metadata reference whose document opens but lacks
`device_id`, `api_id` or `intrinsics`: `LoadMetaData` returns failure, and `SetUp`
returns failure with the ready flag false, having done nothing in the world but
open the metadata file for reading: no file is written, the capture handle and
the hardware are as before, and no other call is traced. -/
theorem SetUp_missing_required_key [FsPath P] [DecidableEq P] [Transform T]
    (s : VideoCapCamera P T) (w : World P T) (fs : Document T)
    (hp : FsPath.empty s.metafile_path_ = false)
    (hf : w.files s.metafile_path_ = some fs)
    (hm : fs.node "device_id" = none ∨ fs.node "api_id" = none ∨ fs.node "intrinsics" = none) :
    (s.LoadMetaData w).ret = false ∧
    (s.SetUp w).ret = false ∧
    (s.SetUp w).self.set_up_ = false ∧
    (s.SetUp w).self.cap = s.cap ∧
    (s.SetUp w).world = { w with trace := w.trace ++ [Event.fsOpenRead s.metafile_path_] } := by
  have hl := LoadMetaData_missing_required s w fs hf hm
  have hl0 := LoadMetaData_missing_required { s with set_up_ := false } w fs hf hm
  refine ⟨hl, ?_⟩
  unfold SetUp
  simp [hp, hl0, LoadMetaData_set_up, LoadMetaData_world, LoadMetaData_cap]

/-- C3 at a concrete input: a document without `api_id`. -/
theorem SetUp_missing_required_key_witness :
    (Example.fileCamera.LoadMetaData
      (Example.diskWorld Example.incomplete Example.idleDevice)).ret = false ∧
    (Example.fileCamera.SetUp (Example.diskWorld Example.incomplete Example.idleDevice)).ret
      = false ∧
    (Example.fileCamera.SetUp
      (Example.diskWorld Example.incomplete Example.idleDevice)).self.set_up_ = false ∧
    (Example.fileCamera.SetUp (Example.diskWorld Example.incomplete Example.idleDevice)).self.cap
      = Example.fileCamera.cap ∧
    (Example.fileCamera.SetUp (Example.diskWorld Example.incomplete Example.idleDevice)).world
      = { Example.diskWorld Example.incomplete Example.idleDevice with
          trace := (Example.diskWorld Example.incomplete Example.idleDevice).trace
            ++ [Event.fsOpenRead Example.fileCamera.metafile_path_] } :=
  SetUp_missing_required_key Example.fileCamera
    (Example.diskWorld Example.incomplete Example.idleDevice) Example.incomplete
    (by decide) (by decide) (Or.inr (Or.inl (by decide)))

/-- C5: with persistence enabled (and the file created), any sensor whose metadata
reference is the file `SaveMetaDataIfDesired` wrote loads it with success and
ends with the `device_id`, `api_id`, `intrinsics` and `camera2world_pose` of the
sensor that wrote it. -/
theorem LoadMetaData_SaveMetaDataIfDesired [FsPath P] [DecidableEq P] [Transform T]
    (s r : VideoCapCamera P T) (w : World P T)
    (hs : s.save_images_ = true) (hw : w.writable s.metaDataPath = true)
    (hr : r.metafile_path_ = s.metaDataPath) :
    (r.LoadMetaData (s.SaveMetaDataIfDesired w)).ret = true ∧
    (r.LoadMetaData (s.SaveMetaDataIfDesired w)).self.device_id_ = s.device_id_ ∧
    (r.LoadMetaData (s.SaveMetaDataIfDesired w)).self.api_id_ = s.api_id_ ∧
    (r.LoadMetaData (s.SaveMetaDataIfDesired w)).self.intrinsics_ = s.intrinsics_ ∧
    (r.LoadMetaData (s.SaveMetaDataIfDesired w)).self.camera2world_pose_
      = s.camera2world_pose_ := by
  obtain ⟨hd, ha, hi, hc, -⟩ := metaDataDocument_node s
  have hf : (s.SaveMetaDataIfDesired w).files r.metafile_path_ = some s.metaDataDocument := by
    rw [hr]; exact SaveMetaDataIfDesired_files s w hs hw
  rw [LoadMetaData_of_required r _ _ _ _ _ hf hd ha hi]
  simp [ReadOptionalValueFromYaml, hc, YamlValue.asTransform]

/-- C5 at a concrete input: `savingCamera` writes, `reloadCamera` (other
selectors, intrinsics and pose) loads. -/
theorem LoadMetaData_SaveMetaDataIfDesired_witness :
    (Example.reloadCamera.LoadMetaData (Example.savingCamera.SaveMetaDataIfDesired
      (Example.blankWorld Example.idleDevice))).ret = true ∧
    (Example.reloadCamera.LoadMetaData (Example.savingCamera.SaveMetaDataIfDesired
      (Example.blankWorld Example.idleDevice))).self.device_id_
        = Example.savingCamera.device_id_ ∧
    (Example.reloadCamera.LoadMetaData (Example.savingCamera.SaveMetaDataIfDesired
      (Example.blankWorld Example.idleDevice))).self.api_id_ = Example.savingCamera.api_id_ ∧
    (Example.reloadCamera.LoadMetaData (Example.savingCamera.SaveMetaDataIfDesired
      (Example.blankWorld Example.idleDevice))).self.intrinsics_
        = Example.savingCamera.intrinsics_ ∧
    (Example.reloadCamera.LoadMetaData (Example.savingCamera.SaveMetaDataIfDesired
      (Example.blankWorld Example.idleDevice))).self.camera2world_pose_
        = Example.savingCamera.camera2world_pose_ :=
  LoadMetaData_SaveMetaDataIfDesired Example.savingCamera Example.reloadCamera
    (Example.blankWorld Example.idleDevice) (by decide) (by decide) (by decide)

/-- C10, as stated, fails: `savingCamera` (persistence enabled, save index 5)
writes its configuration and a sensor just constructed on that file loads it;
the load succeeds, yet the eight fields are not all reproduced: `save_images_`
is false in the reader and true in the writer. -/
theorem round_trip_not_every_field :
    Example.savingCamera.save_images_ = true ∧
    (Example.freshReader.LoadMetaData (Example.savingCamera.SaveMetaDataIfDesired
      (Example.blankWorld Example.idleDevice))).ret = true ∧
    (Example.freshReader.LoadMetaData (Example.savingCamera.SaveMetaDataIfDesired
      (Example.blankWorld Example.idleDevice))).self.save_images_ = false ∧
    ¬ ((Example.freshReader.LoadMetaData (Example.savingCamera.SaveMetaDataIfDesired
          (Example.blankWorld Example.idleDevice))).self.device_id_
          = Example.savingCamera.device_id_ ∧
       (Example.freshReader.LoadMetaData (Example.savingCamera.SaveMetaDataIfDesired
          (Example.blankWorld Example.idleDevice))).self.api_id_
          = Example.savingCamera.api_id_ ∧
       (Example.freshReader.LoadMetaData (Example.savingCamera.SaveMetaDataIfDesired
          (Example.blankWorld Example.idleDevice))).self.intrinsics_
          = Example.savingCamera.intrinsics_ ∧
       (Example.freshReader.LoadMetaData (Example.savingCamera.SaveMetaDataIfDesired
          (Example.blankWorld Example.idleDevice))).self.camera2world_pose_
          = Example.savingCamera.camera2world_pose_ ∧
       (Example.freshReader.LoadMetaData (Example.savingCamera.SaveMetaDataIfDesired
          (Example.blankWorld Example.idleDevice))).self.save_directory_
          = Example.savingCamera.save_directory_ ∧
       (Example.freshReader.LoadMetaData (Example.savingCamera.SaveMetaDataIfDesired
          (Example.blankWorld Example.idleDevice))).self.save_index_
          = Example.savingCamera.save_index_ ∧
       (Example.freshReader.LoadMetaData (Example.savingCamera.SaveMetaDataIfDesired
          (Example.blankWorld Example.idleDevice))).self.save_image_type_
          = Example.savingCamera.save_image_type_ ∧
       (Example.freshReader.LoadMetaData (Example.savingCamera.SaveMetaDataIfDesired
          (Example.blankWorld Example.idleDevice))).self.save_images_
          = Example.savingCamera.save_images_) := by
  decide

/-- C10, amended: with persistence enabled (and the file created), a sensor just
constructed on the file `SaveMetaDataIfDesired` wrote loads it with success and
reproduces `device_id`, `api_id`, `intrinsics` and `camera2world_pose`; the
persistence fields are not in the document, so the reader keeps what its
constructor gave it: save index 0, saving disabled, its own image type, and its
own save directory (resolved against the directory of the file when relative). -/
theorem round_trip_fresh_sensor [FsPath P] [DecidableEq P] [Transform T]
    (s rest : VideoCapCamera P T) (name : String) (w : World P T)
    (hs : s.save_images_ = true) (hw : w.writable s.metaDataPath = true) :
    ((create name s.metaDataPath rest).LoadMetaData (s.SaveMetaDataIfDesired w)).ret = true ∧
    ((create name s.metaDataPath rest).LoadMetaData (s.SaveMetaDataIfDesired w)).self.device_id_
      = s.device_id_ ∧
    ((create name s.metaDataPath rest).LoadMetaData (s.SaveMetaDataIfDesired w)).self.api_id_
      = s.api_id_ ∧
    ((create name s.metaDataPath rest).LoadMetaData (s.SaveMetaDataIfDesired w)).self.intrinsics_
      = s.intrinsics_ ∧
    ((create name s.metaDataPath rest).LoadMetaData
      (s.SaveMetaDataIfDesired w)).self.camera2world_pose_ = s.camera2world_pose_ ∧
    ((create name s.metaDataPath rest).LoadMetaData (s.SaveMetaDataIfDesired w)).self.save_index_
      = 0 ∧
    ((create name s.metaDataPath rest).LoadMetaData (s.SaveMetaDataIfDesired w)).self.save_images_
      = false ∧
    ((create name s.metaDataPath rest).LoadMetaData
      (s.SaveMetaDataIfDesired w)).self.save_image_type_ = rest.save_image_type_ ∧
    ((create name s.metaDataPath rest).LoadMetaData
      (s.SaveMetaDataIfDesired w)).self.save_directory_ =
        (if FsPath.is_relative rest.save_directory_ then
          FsPath.append (FsPath.parent_path s.metaDataPath) rest.save_directory_
        else rest.save_directory_) := by
  obtain ⟨hd, ha, hi, hc, hsd, hsi, hst, hsv⟩ := metaDataDocument_node s
  have hf : (s.SaveMetaDataIfDesired w).files (create name s.metaDataPath rest).metafile_path_
      = some s.metaDataDocument := SaveMetaDataIfDesired_files s w hs hw
  rw [LoadMetaData_of_required _ _ _ _ _ _ hf hd ha hi]
  simp [ReadOptionalValueFromYaml, hc, hsd, hsi, hst, hsv, YamlValue.asTransform, create]

/-- C10, amended, at a concrete input: `savingCamera` writes, a sensor just
constructed loads. -/
theorem round_trip_fresh_sensor_witness :
    ((create "replay" Example.savingCamera.metaDataPath Example.camera).LoadMetaData
      (Example.savingCamera.SaveMetaDataIfDesired (Example.blankWorld Example.idleDevice))).ret
        = true ∧
    ((create "replay" Example.savingCamera.metaDataPath Example.camera).LoadMetaData
      (Example.savingCamera.SaveMetaDataIfDesired
        (Example.blankWorld Example.idleDevice))).self.intrinsics_
          = Example.savingCamera.intrinsics_ ∧
    ((create "replay" Example.savingCamera.metaDataPath Example.camera).LoadMetaData
      (Example.savingCamera.SaveMetaDataIfDesired
        (Example.blankWorld Example.idleDevice))).self.save_images_ = false :=
  have h := round_trip_fresh_sensor Example.savingCamera Example.camera "replay"
    (Example.blankWorld Example.idleDevice) (by decide) (by decide)
  ⟨h.1, h.2.2.2.1, h.2.2.2.2.2.2.1⟩

end VideoCapCamera

end M3T
